import Mathlib

/-
Verification of robottelo/entities.py, the entity layer of the robottelo
test suite for a Foreman/Katello style server.

The HTTP client is modelled as an oracle of type Request -> Response; a
helper method becomes a pure function of that oracle which also reports
the list of requests it issued and the ids of the asynchronous tasks it
polled.  Python exceptions (requests HTTPError, APIResponseError from this
module, KeyError and TypeError from dictionary access, TaskTimeout from
task polling) become values of an error type threaded through Except.
-/

namespace Robottelo

/-- A parsed JSON value, the result of response.json() in the source. -/
inductive JsonVal where
  | null : JsonVal
  | bool : Bool → JsonVal
  | num : Int → JsonVal
  | str : String → JsonVal
  | arr : List JsonVal → JsonVal
  | obj : List (String × JsonVal) → JsonVal

/-- The exceptions the modelled code can raise. httpError is the
requests.exceptions.HTTPError raised by raise_for_status, apiResponseError
is the APIResponseError of this module (carrying the number of search
results, the interesting argument of the source message), keyError and
typeError arise from subscripting a JSON value, taskTimeout is
robottelo.orm.TaskTimeout. -/
inductive ApiError where
  | httpError (status : Nat)
  | apiResponseError (numResults : Nat)
  | keyError (key : String)
  | typeError
  | taskTimeout
deriving DecidableEq

/-- Subscripting a decoded JSON value with a string key, as in
response.json()["id"]: a KeyError if the key is absent, a TypeError if the
value is not a dictionary. -/
def JsonVal.index (j : JsonVal) (key : String) : Except ApiError JsonVal :=
  match j with
  | JsonVal.obj fields =>
    match fields.lookup key with
    | some v => Except.ok v
    | none => Except.error (ApiError.keyError key)
  | _ => Except.error ApiError.typeError

/-- An HTTP response: the status code and the decoded JSON body. -/
structure Response where
  status_code : Nat
  json : JsonVal

/-- True exactly for the status codes on which requests raise_for_status
raises HTTPError: 4xx client errors and 5xx server errors. -/
def http_error_status (status : Nat) : Bool :=
  decide (400 ≤ status) && decide (status < 600)

/-- One HTTP request issued through robottelo.api.client: the verb, the
path, the data dictionary and the files dictionary (file names mapped to
the local paths uploaded).  The server credentials and the verify flag
passed with every request are common to all of them and elided. -/
structure Request where
  verb : String
  url : String
  data : List (String × JsonVal)
  files : List (String × String)

/-- What one helper method call did: its value or the exception it raised,
the HTTP requests it issued in order, and the ids of the ForemanTasks it
polled. -/
structure CallResult (α : Type) where
  result : Except ApiError α
  requests : List Request
  polls : List JsonVal

namespace httplib

/-- httplib.ACCEPTED.  The source compares with the operator is; CPython
interns the small integers up to 256, so for the value 202 identity
coincides with numeric equality and the comparison is modelled as
equality. -/
def ACCEPTED : Nat := 202

end httplib

/-- Modelled from the spec: robottelo.common.helpers.escape_search is an
external helper not described by the spec; it only shapes the query
payload sent to the server, modelled as wrapping the term in double
quotes. -/
def escape_search (s : String) : String := "\"" ++ s ++ "\""

/-- Modelled from the spec: the default robottelo.orm.Entity.path
implementation (robottelo/orm.py is not part of the provided source).
Each entity declares an API path template; path "base" is that template,
path "self" appends the entity id to it, and a missing argument selects
"self" when an id is set and "base" otherwise.  The server URL that
really precedes every path is common to all of them and elided. -/
def default_path (api_path : String) (id : Option Nat) (which : Option String) : String :=
  if which = some "base" then api_path
  else
    match id with
    | some i => api_path ++ "/" ++ toString i
    | none => api_path

/-- The value sent on the wire for an optional numeric id field. -/
def jsonOfId : Option Nat → JsonVal
  | some n => JsonVal.num n
  | none => JsonVal.null

/-- The successive status checks of a polling loop: check number k asks
whether the task is finished; the first argument is the number of checks
still allowed.  Returns the index of the first check that saw the task
finished, if any check did. -/
def poll_checks (finished : Nat → Bool) : Nat → Nat → Option Nat
  | 0, _ => none
  | n + 1, k => if finished k then some k else poll_checks finished n (k + 1)

/-- How many status checks happen before the timeout: check number k runs
k * poll_rate seconds after the start, and checks stop once timeout
seconds have elapsed, so the checks are those with k * poll_rate strictly
below timeout. -/
def num_checks (poll_rate timeout : Nat) : Nat := (timeout + poll_rate - 1) / poll_rate

/-- Modelled from the spec: robottelo.orm._poll_task (robottelo/orm.py is
not part of the provided source).  Task polling is a client side loop
that checks the status of the task once every poll_rate seconds, starting
immediately, until the task completes or timeout seconds have elapsed.
The oracle task_finished says whether the task with the given id has
completed by check number k, and task_info gives the task information
dictionary the task status endpoint reports at that check.  Returns the
information of the first check that saw the task finished, and raises
TaskTimeout when no check before the timeout did. -/
def orm_poll_task (task_id : JsonVal) (poll_rate timeout : Nat)
    (task_finished : JsonVal → Nat → Bool) (task_info : JsonVal → Nat → JsonVal) :
    Except ApiError JsonVal :=
  match poll_checks (task_finished task_id) (num_checks poll_rate timeout) 0 with
  | some k => Except.ok (task_info task_id k)
  | none => Except.error ApiError.taskTimeout

/-- A representation of a Foreman task. -/
structure ForemanTask where
  id : JsonVal

/-- ForemanTask.poll: delegates to orm._poll_task with the id of this
task.  The source defaults are poll_rate 5 and timeout 120. -/
def ForemanTask.poll (self : ForemanTask) (poll_rate timeout : Nat)
    (task_finished : JsonVal → Nat → Bool) (task_info : JsonVal → Nat → JsonVal) :
    Except ApiError JsonVal :=
  orm_poll_task self.id poll_rate timeout task_finished task_info

/-- The response handling block that every asynchronous helper method of
the source repeats verbatim: raise_for_status, then, if the status code
is 202 (accepted), read the task id from the "id" field of the response
JSON, poll that ForemanTask to completion when synchronous is true, and
return the task id; on any other status return None.  The returned pair
is the result together with the ids of the tasks polled. -/
def task_response_tail (response : Response) (synchronous : Bool)
    (task_finished : JsonVal → Nat → Bool) (task_info : JsonVal → Nat → JsonVal) :
    Except ApiError (Option JsonVal) × List JsonVal :=
  if http_error_status response.status_code = true then
    (Except.error (ApiError.httpError response.status_code), [])
  else if response.status_code = httplib.ACCEPTED then
    match response.json.index "id" with
    | Except.error e => (Except.error e, [])
    | Except.ok task_id =>
      if synchronous = true then
        match ForemanTask.poll { id := task_id } 5 120 task_finished task_info with
        | Except.error e => (Except.error e, [task_id])
        | Except.ok _ => (Except.ok (some task_id), [task_id])
      else (Except.ok (some task_id), [])
  else (Except.ok none, [])

/-- The unique search response handling that the fetch helpers of the
source repeat verbatim: raise_for_status, read the results list from the
response JSON, raise APIResponseError unless it has exactly one element,
and return the id of that single element. -/
def unique_search_tail (response : Response) : Except ApiError JsonVal :=
  if http_error_status response.status_code = true then
    Except.error (ApiError.httpError response.status_code)
  else
    match response.json.index "results" with
    | Except.error e => Except.error e
    | Except.ok (JsonVal.arr [r]) => r.index "id"
    | Except.ok (JsonVal.arr rs) => Except.error (ApiError.apiResponseError rs.length)
    | Except.ok _ => Except.error ApiError.typeError

/-- A representation of an Activation Key entity; only the id matters to
the modelled methods, the other fields are declarative configuration. -/
structure ActivationKey where
  id : Option Nat

def ActivationKey.api_path : String := "katello/api/v2/activation_keys"

/-- ActivationKey.path: releases and subscriptions are appended to the
path of this activation key; anything else falls through to the default
implementation. -/
def ActivationKey.path (self : ActivationKey) (which : Option String) : String :=
  match which with
  | some w =>
    if w = "releases" || w = "subscriptions" then
      default_path ActivationKey.api_path self.id (some "self") ++ "/" ++ w
    else default_path ActivationKey.api_path self.id (some w)
  | none => default_path ActivationKey.api_path self.id none

/-- The GET request a raw read of an activation key issues. -/
def ActivationKey.read_raw_request (self : ActivationKey) : Request :=
  { verb := "get", url := self.path none, data := [], files := [] }

/-- The Python operator is applied to a freshly created int (such as a
parsed status code) and an int literal: it compares object identity, and
CPython interns only the small ints up to 256 (and down to -5), so the
comparison can only succeed for an interned value equal to the literal;
for a literal outside that range a freshly parsed int is never the same
object and the comparison is false. -/
def int_is_literal (parsed literal : Nat) : Bool :=
  parsed == literal && decide (literal ≤ 256)

/-- ActivationKey.read_raw: calls the inherited raw read and then tests
response.status_code is 404 and bz_bug_is_open(1127335), intending to
sleep five seconds and call it a second time.  The status code is parsed
by httplib as a fresh int and 404 lies outside the CPython interned
range, so the identity test never succeeds and the retry branch is dead
code: the call issues exactly one request.  The inherited
orm.EntityReadMixin.read_raw is modelled from the spec as a single GET
of the entity path returning the raw response. -/
def ActivationKey.read_raw (self : ActivationKey) (bug_1127335_open : Bool)
    (server : Request → Response) : Response × List Request :=
  let req := ActivationKey.read_raw_request self
  let first := server req
  if int_is_literal first.status_code 404 = true ∧ bug_1127335_open = true then
    (server req, [req, req])
  else (first, [req])

/-- The POST request of ActivationKey.add_subsciptions (the typo is the
name of the source method). -/
def ActivationKey.add_subsciptions_request (self : ActivationKey)
    (subscription_id quantity : JsonVal) : Request :=
  { verb := "post", url := self.path (some "subscriptions"),
    data := [("id", subscription_id), ("quantity", quantity)], files := [] }

/-- ActivationKey.add_subsciptions: posts the subscription id and the
quantity to the subscriptions sub path, raises on an HTTP error status
and returns the decoded response JSON. -/
def ActivationKey.add_subsciptions (self : ActivationKey)
    (subscription_id quantity : JsonVal) (server : Request → Response) :
    CallResult JsonVal :=
  let req := ActivationKey.add_subsciptions_request self subscription_id quantity
  let response := server req
  if http_error_status response.status_code = true then
    { result := Except.error (ApiError.httpError response.status_code),
      requests := [req], polls := [] }
  else
    { result := Except.ok response.json, requests := [req], polls := [] }

/-- A representation of a Content View entity. -/
structure ContentView where
  id : Option Nat

def ContentView.api_path : String := "katello/api/v2/content_views"

/-- ContentView.path: four sub paths are appended to the path of this
content view; anything else falls through to the default. -/
def ContentView.path (self : ContentView) (which : Option String) : String :=
  match which with
  | some w =>
    if w = "content_view_puppet_modules" || w = "content_view_versions" ||
        w = "publish" || w = "available_puppet_module_names" then
      default_path ContentView.api_path self.id (some "self") ++ "/" ++ w
    else default_path ContentView.api_path self.id (some w)
  | none => default_path ContentView.api_path self.id none

/-- The POST request ContentView.publish issues. -/
def ContentView.publish_request (self : ContentView) : Request :=
  { verb := "post", url := self.path (some "publish"),
    data := [("id", jsonOfId self.id)], files := [] }

/-- ContentView.publish: posts to the publish sub path and handles the
response with the shared asynchronous task block. -/
def ContentView.publish (self : ContentView) (synchronous : Bool)
    (server : Request → Response) (task_finished : JsonVal → Nat → Bool)
    (task_info : JsonVal → Nat → JsonVal) : CallResult (Option JsonVal) :=
  let req := ContentView.publish_request self
  let t := task_response_tail (server req) synchronous task_finished task_info
  { result := t.1, requests := [req], polls := t.2 }

/-- A representation of a Content View Version non-entity. -/
structure ContentViewVersion where
  id : Option Nat

def ContentViewVersion.api_path : String := "katello/api/v2/content_view_versions"

/-- ContentViewVersion.path: promote is appended to the path of this
content view version; anything else falls through to the default. -/
def ContentViewVersion.path (self : ContentViewVersion) (which : Option String) : String :=
  match which with
  | some w =>
    if w = "promote" then
      default_path ContentViewVersion.api_path self.id (some "self") ++ "/promote"
    else default_path ContentViewVersion.api_path self.id (some w)
  | none => default_path ContentViewVersion.api_path self.id none

/-- The POST request ContentViewVersion.promote issues. -/
def ContentViewVersion.promote_request (self : ContentViewVersion)
    (environment_id : String) : Request :=
  { verb := "post", url := self.path (some "promote"),
    data := [("environment_id", JsonVal.str environment_id)], files := [] }

/-- ContentViewVersion.promote: posts the target environment id to the
promote sub path and handles the response with the shared asynchronous
task block. -/
def ContentViewVersion.promote (self : ContentViewVersion) (environment_id : String)
    (synchronous : Bool) (server : Request → Response)
    (task_finished : JsonVal → Nat → Bool) (task_info : JsonVal → Nat → JsonVal) :
    CallResult (Option JsonVal) :=
  let req := ContentViewVersion.promote_request self environment_id
  let t := task_response_tail (server req) synchronous task_finished task_info
  { result := t.1, requests := [req], polls := t.2 }

/-- A representation of an Organization entity. -/
structure Organization where
  id : Option Nat

def Organization.api_path : String := "katello/api/v2/organizations"

/-- Organization.path: six sub paths are appended to the path of this
organization; anything else falls through to the default. -/
def Organization.path (self : Organization) (which : Option String) : String :=
  match which with
  | some w =>
    if w = "products" || w = "subscriptions/delete_manifest" ||
        w = "subscriptions/refresh_manifest" || w = "subscriptions/upload" ||
        w = "sync_plans" || w = "subscriptions" then
      default_path Organization.api_path self.id (some "self") ++ "/" ++ w
    else default_path Organization.api_path self.id (some w)
  | none => default_path Organization.api_path self.id none

/-- The GET request Organization.subscriptions issues. -/
def Organization.subscriptions_request (self : Organization) : Request :=
  { verb := "get", url := self.path (some "subscriptions"), data := [], files := [] }

/-- Organization.subscriptions: lists the subscriptions of the
organization, raising on an HTTP error status and returning the results
field of the response JSON. -/
def Organization.subscriptions (self : Organization) (server : Request → Response) :
    CallResult JsonVal :=
  let req := Organization.subscriptions_request self
  let response := server req
  if http_error_status response.status_code = true then
    { result := Except.error (ApiError.httpError response.status_code),
      requests := [req], polls := [] }
  else
    { result := response.json.index "results", requests := [req], polls := [] }

/-- The POST request Organization.upload_manifest issues; the manifest
file opened at the local path is sent as the content file. -/
def Organization.upload_manifest_request (self : Organization) (path : String)
    (repository_url : Option String) : Request :=
  { verb := "post", url := self.path (some "subscriptions/upload"),
    data := match repository_url with
      | some u => [("repository_url", JsonVal.str u)]
      | none => [],
    files := [("content", path)] }

/-- Organization.upload_manifest: uploads a subscription manifest and
handles the response with the shared asynchronous task block. -/
def Organization.upload_manifest (self : Organization) (path : String)
    (repository_url : Option String) (synchronous : Bool)
    (server : Request → Response) (task_finished : JsonVal → Nat → Bool)
    (task_info : JsonVal → Nat → JsonVal) : CallResult (Option JsonVal) :=
  let req := Organization.upload_manifest_request self path repository_url
  let t := task_response_tail (server req) synchronous task_finished task_info
  { result := t.1, requests := [req], polls := t.2 }

/-- The POST request Organization.delete_manifest issues. -/
def Organization.delete_manifest_request (self : Organization) : Request :=
  { verb := "post", url := self.path (some "subscriptions/delete_manifest"),
    data := [], files := [] }

/-- Organization.delete_manifest: deletes the manifest and handles the
response with the shared asynchronous task block. -/
def Organization.delete_manifest (self : Organization) (synchronous : Bool)
    (server : Request → Response) (task_finished : JsonVal → Nat → Bool)
    (task_info : JsonVal → Nat → JsonVal) : CallResult (Option JsonVal) :=
  let req := Organization.delete_manifest_request self
  let t := task_response_tail (server req) synchronous task_finished task_info
  { result := t.1, requests := [req], polls := t.2 }

/-- The PUT request Organization.refresh_manifest issues. -/
def Organization.refresh_manifest_request (self : Organization) : Request :=
  { verb := "put", url := self.path (some "subscriptions/refresh_manifest"),
    data := [], files := [] }

/-- Organization.refresh_manifest: refreshes the manifest and handles the
response with the shared asynchronous task block. -/
def Organization.refresh_manifest (self : Organization) (synchronous : Bool)
    (server : Request → Response) (task_finished : JsonVal → Nat → Bool)
    (task_info : JsonVal → Nat → JsonVal) : CallResult (Option JsonVal) :=
  let req := Organization.refresh_manifest_request self
  let t := task_response_tail (server req) synchronous task_finished task_info
  { result := t.1, requests := [req], polls := t.2 }

/-- The POST request Organization.sync_plan issues; sync_date is the
formatted current time, a parameter here. -/
def Organization.sync_plan_request (self : Organization)
    (name interval sync_date : String) : Request :=
  { verb := "post", url := self.path (some "sync_plans"),
    data := [("name", JsonVal.str name), ("interval", JsonVal.str interval),
             ("sync_date", JsonVal.str sync_date)], files := [] }

/-- Organization.sync_plan: creates a sync plan, raising on an HTTP error
status and returning the decoded response JSON. -/
def Organization.sync_plan (self : Organization) (name interval sync_date : String)
    (server : Request → Response) : CallResult JsonVal :=
  let req := Organization.sync_plan_request self name interval sync_date
  let response := server req
  if http_error_status response.status_code = true then
    { result := Except.error (ApiError.httpError response.status_code),
      requests := [req], polls := [] }
  else
    { result := Except.ok response.json, requests := [req], polls := [] }

/-- The GET request Organization.list_rhproducts issues. -/
def Organization.list_rhproducts_request (self : Organization)
    (per_page : Option Nat) : Request :=
  { verb := "get", url := self.path (some "products"),
    data := [("per_page", jsonOfId per_page)], files := [] }

/-- Organization.list_rhproducts: lists the products of the organization,
raising on an HTTP error status and returning the results field. -/
def Organization.list_rhproducts (self : Organization) (per_page : Option Nat)
    (server : Request → Response) : CallResult JsonVal :=
  let req := Organization.list_rhproducts_request self per_page
  let response := server req
  if http_error_status response.status_code = true then
    { result := Except.error (ApiError.httpError response.status_code),
      requests := [req], polls := [] }
  else
    { result := response.json.index "results", requests := [req], polls := [] }

/-- The GET request Organization.fetch_rhproduct_id issues: a search by
name under the products sub path. -/
def Organization.fetch_rhproduct_id_request (self : Organization) (name : String) :
    Request :=
  { verb := "get", url := self.path (some "products"),
    data := [("search", JsonVal.str ("name=" ++ escape_search name))], files := [] }

/-- Organization.fetch_rhproduct_id: searches the products of the
organization by name and handles the response with the shared unique
search block. -/
def Organization.fetch_rhproduct_id (self : Organization) (name : String)
    (server : Request → Response) : CallResult JsonVal :=
  let req := Organization.fetch_rhproduct_id_request self name
  { result := unique_search_tail (server req), requests := [req], polls := [] }

/-- A representation of a Product entity. -/
structure Product where
  id : Option Nat

def Product.api_path : String := "katello/api/v2/products"

/-- Product.path: any argument starting with repository_sets is appended
to the path of this product; anything else falls through to the
default. -/
def Product.path (self : Product) (which : Option String) : String :=
  match which with
  | some w =>
    if w.startsWith "repository_sets" then
      default_path Product.api_path self.id (some "self") ++ "/" ++ w
    else default_path Product.api_path self.id (some w)
  | none => default_path Product.api_path self.id none

/-- The GET request Product.list_repositorysets issues. -/
def Product.list_repositorysets_request (self : Product) (per_page : Option Nat) :
    Request :=
  { verb := "get", url := self.path (some "repository_sets"),
    data := [("per_page", jsonOfId per_page)], files := [] }

/-- Product.list_repositorysets: lists the repository sets of the
product, raising on an HTTP error status and returning the results
field. -/
def Product.list_repositorysets (self : Product) (per_page : Option Nat)
    (server : Request → Response) : CallResult JsonVal :=
  let req := Product.list_repositorysets_request self per_page
  let response := server req
  if http_error_status response.status_code = true then
    { result := Except.error (ApiError.httpError response.status_code),
      requests := [req], polls := [] }
  else
    { result := response.json.index "results", requests := [req], polls := [] }

/-- The GET request Product.fetch_rhproduct_id issues: a search by name
restricted to an organization, against the base products path. -/
def Product.fetch_rhproduct_id_request (self : Product) (name org_id : String) :
    Request :=
  { verb := "get", url := default_path Product.api_path self.id (some "base"),
    data := [("search", JsonVal.str ("name=" ++ escape_search name)),
             ("organization_id", JsonVal.str org_id)], files := [] }

/-- Product.fetch_rhproduct_id: searches the products by name within an
organization and handles the response with the shared unique search
block. -/
def Product.fetch_rhproduct_id (self : Product) (name org_id : String)
    (server : Request → Response) : CallResult JsonVal :=
  let req := Product.fetch_rhproduct_id_request self name org_id
  { result := unique_search_tail (server req), requests := [req], polls := [] }

/-- The GET request Product.fetch_reposet_id issues: a lookup by plain
name under the repository_sets sub path. -/
def Product.fetch_reposet_id_request (self : Product) (name : String) : Request :=
  { verb := "get", url := self.path (some "repository_sets"),
    data := [("name", JsonVal.str name)], files := [] }

/-- Product.fetch_reposet_id: searches the repository sets of the product
by name and handles the response with the shared unique search block. -/
def Product.fetch_reposet_id (self : Product) (name : String)
    (server : Request → Response) : CallResult JsonVal :=
  let req := Product.fetch_reposet_id_request self name
  { result := unique_search_tail (server req), requests := [req], polls := [] }

/-- The PUT request Product.enable_rhrepo issues. -/
def Product.enable_rhrepo_request (self : Product)
    (base_arch release_ver reposet_id : String) : Request :=
  { verb := "put",
    url := self.path (some ("repository_sets/" ++ reposet_id ++ "/enable")),
    data := [("basearch", JsonVal.str base_arch),
             ("releasever", JsonVal.str release_ver)], files := [] }

/-- Product.enable_rhrepo: enables a RedHat repository of the given
repository set and handles the response with the shared asynchronous
task block. -/
def Product.enable_rhrepo (self : Product) (base_arch release_ver reposet_id : String)
    (synchronous : Bool) (server : Request → Response)
    (task_finished : JsonVal → Nat → Bool) (task_info : JsonVal → Nat → JsonVal) :
    CallResult (Option JsonVal) :=
  let req := Product.enable_rhrepo_request self base_arch release_ver reposet_id
  let t := task_response_tail (server req) synchronous task_finished task_info
  { result := t.1, requests := [req], polls := t.2 }

/-- The PUT request Product.disable_rhrepo issues. -/
def Product.disable_rhrepo_request (self : Product)
    (base_arch release_ver reposet_id : String) : Request :=
  { verb := "put",
    url := self.path (some ("repository_sets/" ++ reposet_id ++ "/disable")),
    data := [("basearch", JsonVal.str base_arch),
             ("releasever", JsonVal.str release_ver)], files := [] }

/-- Product.disable_rhrepo: disables a RedHat repository of the given
repository set and handles the response with the shared asynchronous
task block. -/
def Product.disable_rhrepo (self : Product) (base_arch release_ver reposet_id : String)
    (synchronous : Bool) (server : Request → Response)
    (task_finished : JsonVal → Nat → Bool) (task_info : JsonVal → Nat → JsonVal) :
    CallResult (Option JsonVal) :=
  let req := Product.disable_rhrepo_request self base_arch release_ver reposet_id
  let t := task_response_tail (server req) synchronous task_finished task_info
  { result := t.1, requests := [req], polls := t.2 }

/-- A representation of a Repository entity. -/
structure Repository where
  id : Option Nat

def Repository.api_path : String := "katello/api/v2/repositories"

/-- Repository.path: sync and upload_content are appended to the path of
this repository; anything else falls through to the default. -/
def Repository.path (self : Repository) (which : Option String) : String :=
  match which with
  | some w =>
    if w = "sync" || w = "upload_content" then
      default_path Repository.api_path self.id (some "self") ++ "/" ++ w
    else default_path Repository.api_path self.id (some w)
  | none => default_path Repository.api_path self.id none

/-- The POST request Repository.sync issues. -/
def Repository.sync_request (self : Repository) : Request :=
  { verb := "post", url := self.path (some "sync"), data := [], files := [] }

/-- Repository.sync: posts to the sync sub path and handles the response
with the shared asynchronous task block. -/
def Repository.sync (self : Repository) (synchronous : Bool)
    (server : Request → Response) (task_finished : JsonVal → Nat → Bool)
    (task_info : JsonVal → Nat → JsonVal) : CallResult (Option JsonVal) :=
  let req := Repository.sync_request self
  let t := task_response_tail (server req) synchronous task_finished task_info
  { result := t.1, requests := [req], polls := t.2 }

/-- The GET request Repository.fetch_repoid issues: a search by name
restricted to an organization, against the path of this repository with
no sub path argument. -/
def Repository.fetch_repoid_request (self : Repository) (org_id name : String) :
    Request :=
  { verb := "get", url := self.path none,
    data := [("organization_id", JsonVal.str org_id),
             ("search", JsonVal.str ("name=" ++ escape_search name))], files := [] }

/-- Repository.fetch_repoid: searches the repositories by name within an
organization and handles the response with the shared unique search
block. -/
def Repository.fetch_repoid (self : Repository) (org_id name : String)
    (server : Request → Response) : CallResult JsonVal :=
  let req := Repository.fetch_repoid_request self org_id name
  { result := unique_search_tail (server req), requests := [req], polls := [] }

/-- A representation of a Lifecycle Environment entity: the fields the
build method reads and writes.  The organization and prior fields hold
the foreign key values as sent on the wire. -/
structure LifecycleEnvironment where
  id : Option Nat
  organization : Option JsonVal
  prior : Option JsonVal

def LifecycleEnvironment.api_path : String := "katello/api/v2/environments"

/-- The organization id LifecycleEnvironment.build works with: the one
already set, or else the id of the organization it creates through the
external factory (supplied as the new_org_id oracle). -/
def LifecycleEnvironment.effective_org (self : LifecycleEnvironment)
    (new_org_id : JsonVal) : JsonVal :=
  match self.organization with
  | some o => o
  | none => new_org_id

/-- The GET request of the Library lookup in LifecycleEnvironment.build:
the base environments path queried by name Library and the organization
id. -/
def LifecycleEnvironment.build_library_request (self : LifecycleEnvironment)
    (new_org_id : JsonVal) : Request :=
  { verb := "get", url := default_path LifecycleEnvironment.api_path self.id none,
    data := [("name", JsonVal.str "Library"),
             ("organization_id", self.effective_org new_org_id)], files := [] }

/-- LifecycleEnvironment.build: creates an organization through the
external factory when none is set (the id it returns is the new_org_id
oracle; the requests that factory issues are outside this module and not
counted), then, when no prior environment is set, looks up the Library
lifecycle environment of the organization, raises APIResponseError
unless that search returns exactly one result, stores the id of the
single result as the prior field, and finally delegates to the factory
build (the super_build oracle, external to this module).  The source
reads the results from the decoded JSON without calling
raise_for_status. -/
def LifecycleEnvironment.build (self : LifecycleEnvironment)
    (server : Request → Response) (new_org_id : JsonVal)
    (super_build : LifecycleEnvironment → Except ApiError JsonVal) :
    CallResult JsonVal :=
  let self1 : LifecycleEnvironment :=
    { self with organization := some (self.effective_org new_org_id) }
  match self.prior with
  | some _ => { result := super_build self1, requests := [], polls := [] }
  | none =>
    let req := LifecycleEnvironment.build_library_request self new_org_id
    let response := server req
    match response.json.index "results" with
    | Except.error e =>
      { result := Except.error e, requests := [req], polls := [] }
    | Except.ok (JsonVal.arr [r]) =>
      match r.index "id" with
      | Except.error e =>
        { result := Except.error e, requests := [req], polls := [] }
      | Except.ok i =>
        { result := super_build { self1 with prior := some i },
          requests := [req], polls := [] }
    | Except.ok (JsonVal.arr rs) =>
      { result := Except.error (ApiError.apiResponseError rs.length),
        requests := [req], polls := [] }
    | Except.ok _ =>
      { result := Except.error ApiError.typeError, requests := [req], polls := [] }

/-- A representation of a Permission entity: the fields the search
method reads. -/
structure Permission where
  id : Option Nat
  name : Option String
  resource_type : Option String

def Permission.api_path : String := "api/v2/permissions"

/-- The GET request Permission.search issues: per_page plus the name and
resource_type search terms when those fields are set. -/
def Permission.search_request (self : Permission) (per_page : Nat) : Request :=
  { verb := "get", url := default_path Permission.api_path self.id (some "base"),
    data := [("per_page", JsonVal.num per_page)] ++
      (match self.name with
        | some n => [("name", JsonVal.str n)]
        | none => []) ++
      (match self.resource_type with
        | some r => [("resource_type", JsonVal.str r)]
        | none => []), files := [] }

/-- Permission.search: searches the permissions by the instance name and
resource type, raising on an HTTP error status and returning the results
field.  The source default for per_page is 10000. -/
def Permission.search (self : Permission) (per_page : Nat)
    (server : Request → Response) : CallResult JsonVal :=
  let req := Permission.search_request self per_page
  let response := server req
  if http_error_status response.status_code = true then
    { result := Except.error (ApiError.httpError response.status_code),
      requests := [req], polls := [] }
  else
    { result := response.json.index "results", requests := [req], polls := [] }

/-- A representation of a System entity: a system has both an id and a
uuid, and the uuid is what identifies it on the wire. -/
structure System where
  id : Option Nat
  uuid : Option String

def System.api_path : String := "katello/api/v2/systems"

/-- System.path: when a uuid is available and which is either missing or
"self", the path is the base systems path followed by the uuid;
otherwise the default implementation is used. -/
def System.path (self : System) (which : Option String) : String :=
  match self.uuid with
  | some u =>
    if which = none ∨ which = some "self" then
      default_path System.api_path self.id (some "base") ++ "/" ++ u
    else default_path System.api_path self.id which
  | none => default_path System.api_path self.id which

/-- The instance fields of an OperatingSystemParameter object: the os_id
recorded by the constructor, and the id, name and value fields. -/
structure OSParamFields where
  os_id : Nat
  id : Option Nat
  name : Option String
  value : Option String

/-- The attributes a read of an operating system parameter brings back
from the server. -/
structure OSParamAttrs where
  id : Option Nat
  name : Option String
  value : Option String

/-- A store of OperatingSystemParameter objects: object references are
the numbers below next, and mem gives the fields of each object.  The
store makes Python object mutation observable: writing through one
reference must not change the fields seen through another. -/
structure OSParamHeap where
  mem : Nat → OSParamFields
  next : Nat

/-- Writing the fields of one object of the store. -/
def OSParamHeap.write (h : OSParamHeap) (r : Nat) (f : OSParamFields) : OSParamHeap :=
  { h with mem := fun i => if i = r then f else h.mem i }

/-- The constructor OperatingSystemParameter(os_id): allocates a new
object recording os_id, with no field values set.  The constructor also
rewrites the class level Meta.api_path from os_id; that is an attribute
of the shared class object, not a field of any instance, and is elided
here. -/
def OperatingSystemParameter.new (h : OSParamHeap) (os_id : Nat) : Nat × OSParamHeap :=
  (h.next,
   { mem := fun i =>
       if i = h.next then { os_id := os_id, id := none, name := none, value := none }
       else h.mem i,
     next := h.next + 1 })

/-- Modelled from the spec: orm.EntityReadMixin.read (robottelo/orm.py is
not part of the provided source).  It writes the server attributes into
the entity object passed to it, clobbering the fields of that object,
and returns that object. -/
def entity_read_into (h : OSParamHeap) (entity : Nat) (attrs : OSParamAttrs) :
    Nat × OSParamHeap :=
  (entity,
   h.write entity
     { (h.mem entity) with id := attrs.id, name := attrs.name, value := attrs.value })

/-- OperatingSystemParameter.read: constructs a fresh
OperatingSystemParameter for the same os_id as the receiver and passes
that fresh object, not the receiver, as the entity for the inherited
read to populate.  Returns the populated object and the store after the
call. -/
def OperatingSystemParameter.read (h : OSParamHeap) (self : Nat)
    (attrs : OSParamAttrs) : Nat × OSParamHeap :=
  let fresh := OperatingSystemParameter.new h (h.mem self).os_id
  entity_read_into fresh.2 fresh.1 attrs

namespace TemplateKind

namespace Meta

/-- A server is pre populated with exactly eight template kinds. -/
def NUM_CREATED_BY_DEFAULT : Nat := 8

end Meta

end TemplateKind

/-- random.choice picks one element of a nonempty sequence; the
randomness source is modelled by the index argument, reduced modulo the
length of the sequence. -/
def random_choice (l : List Nat) (idx : Nat) : Nat :=
  l.getD (idx % l.length) 0

/-- dict.setdefault: adds the key with the given value only when the key
is absent, leaving the dictionary unchanged otherwise. -/
def setdefault (values : List (String × JsonVal)) (key : String) (v : JsonVal) :
    List (String × JsonVal) :=
  match values.lookup key with
  | some _ => values
  | none => values ++ [(key, v)]

/-- ConfigTemplate._factory_data: values is the dictionary the factory
super call produced, and rand_idx models the randomness source of
random.choice.  When the generated values mark the template as not a
snippet, a template_kind_id is defaulted to a random choice from
range(1, NUM_CREATED_BY_DEFAULT + 1), the kinds a server is pre
populated with. -/
def ConfigTemplate.factory_data (values : List (String × JsonVal)) (rand_idx : Nat) :
    List (String × JsonVal) :=
  match values.lookup "snippet" with
  | some (JsonVal.bool false) =>
    setdefault values "template_kind_id"
      (JsonVal.num
        (random_choice (List.range' 1 TemplateKind.Meta.NUM_CREATED_BY_DEFAULT)
          rand_idx))
  | _ => values

/-- The contents of the inner Meta class of one entity: the api path
templates (a single template for every class except OverrideValue, whose
Meta holds a pair of templates), the field name to wire name renames,
and the server modes.  In the source a parenthesized single string such
as ("sat") is the bare string, one mode; it is transcribed as a one
element list here. -/
structure EntityMeta where
  api_path : List String
  api_names : List (String × String)
  server_modes : List String

/-- One entity class of the module: its name and its declared inner Meta
class, none when the class declares no Meta of its own (the case of
OperatingSystemParameter, whose constructor assigns the inherited Meta
at run time instead). -/
structure EntityDecl where
  name : String
  meta : Option EntityMeta

/-- A declaration with a single path template and no renames. -/
def entity_decl (name path : String) (modes : List String) : EntityDecl :=
  { name := name,
    meta := some { api_path := [path], api_names := [], server_modes := modes } }

/-- A declaration with a single path template and renames. -/
def entity_decl_names (name path : String) (names : List (String × String))
    (modes : List String) : EntityDecl :=
  { name := name,
    meta := some { api_path := [path], api_names := names, server_modes := modes } }

/-- Every entity class of the module in source order, with the contents
of its declared inner Meta class. -/
def all_entity_decls : List EntityDecl :=
  [ entity_decl "ActivationKey" ActivationKey.api_path ["sat", "sam"],
    entity_decl "Architecture" "api/v2/architectures" ["sat"],
    entity_decl "AuthSourceLDAP" "api/v2/auth_source_ldaps" ["sat"],
    entity_decl "Bookmark" "api/v2/bookmarks" ["sat"],
    entity_decl "CommonParameter" "api/v2/common_parameters" ["sat"],
    entity_decl "ComputeAttribute" "api/v2/compute_attributes" ["sat"],
    entity_decl "ComputeProfile" "api/v2/compute_profiles" ["sat"],
    entity_decl "ComputeResource" "api/v2/compute_resources" ["sat"],
    entity_decl "ConfigGroup" "api/v2/config_groups" ["sat"],
    entity_decl "ConfigTemplate" "api/v2/config_templates" ["sat"],
    entity_decl "ContentUpload"
      "katello/api/v2/repositories/:repository_id/content_uploads" ["sat"],
    entity_decl "ContentViewVersion" ContentViewVersion.api_path ["sat"],
    entity_decl "ContentViewFilterRule"
      "katello/api/v2/content_view_filters/:content_view_filter_id/rules" ["sat"],
    entity_decl_names "ContentViewFilter" "katello/api/v2/content_view_filters"
      [("filter_type", "type")] ["sat"],
    entity_decl "ContentViewPuppetModule"
      "katello/api/v2/content_views/:content_view_id/content_view_puppet_modules"
      ["sat"],
    entity_decl "ContentView" ContentView.api_path ["sat"],
    entity_decl "CustomInfo"
      "katello/api/v2/custom_info/:informable_type/:informable_id" ["sat"],
    entity_decl "Domain" "api/v2/domains" ["sat"],
    entity_decl "Environment" "api/v2/environments" ["sat"],
    entity_decl "Errata" "api/v2/errata" ["sat"],
    entity_decl "Filter" "api/v2/filters" ["sat"],
    entity_decl "ForemanTask" "foreman_tasks/api/tasks" ["sat"],
    entity_decl "GPGKey" "katello/api/v2/gpg_keys" ["sat"],
    entity_decl "HostClasses" "api/v2/hosts/:host_id/puppetclass_ids" ["sat"],
    entity_decl "HostCollectionErrata"
      "katello/api/v2/organizations/:organization_id/host_collections/:host_collection_id/errata"
      ["sat"],
    entity_decl "HostCollectionPackage"
      "katello/api/v2/organizations/:organization_id/host_collections/:host_collection_id/packages"
      ["sat"],
    entity_decl "HostCollection" "katello/api/v2/host_collections" ["sat", "sam"],
    entity_decl "HostGroupClasses" "api/v2/hostgroups/:hostgroup_id/puppetclass_ids"
      ["sat"],
    entity_decl "HostGroup" "api/v2/hostgroups" ["sat"],
    entity_decl_names "Host" "api/v2/hosts" [("build_", "build")] ["sat"],
    entity_decl "Image" "api/v2/compute_resources/:compute_resource_id/images"
      ["sat"],
    entity_decl_names "Interface" "api/v2/hosts/:host_id/interfaces"
      [("interface_type", "type")] ["sat"],
    entity_decl "LifecycleEnvironment" LifecycleEnvironment.api_path ["sat"],
    entity_decl "Location" "api/v2/locations" ["sat"],
    entity_decl_names "Media" "api/v2/media" [("media_path", "path")] ["sat"],
    entity_decl "Model" "api/v2/models" ["sat"],
    entity_decl_names "OperatingSystem" "api/v2/operatingsystems"
      [("media_ids", "media"), ("ptable_ids", "ptables"),
       ("architecture_ids", "architectures")] ["sat"],
    { name := "OperatingSystemParameter", meta := none },
    entity_decl "OrganizationDefaultInfo"
      "katello/api/v2/organizations/:organization_id/default_info/:informable_type"
      ["sat", "sam"],
    entity_decl "Organization" Organization.api_path ["sat", "sam"],
    entity_decl "OSDefaultTemplate"
      "api/v2/operatingsystems/:operatingsystem_id/os_default_templates" ["sat"],
    { name := "OverrideValue",
      meta := some
        { api_path :=
            ["/api/v2/smart_variables/:smart_variable_id/override_values",
             "/api/v2/smart_class_parameters/:smart_class_parameter_id/override_values"],
          api_names := [], server_modes := ["sat"] } },
    entity_decl "Permission" Permission.api_path ["sat", "sam"],
    entity_decl "Ping" "katello/api/v2/ping" ["sat", "sam"],
    entity_decl "Product" Product.api_path ["sat", "sam"],
    entity_decl "PartitionTable" "api/v2/ptables" ["sat"],
    entity_decl "PuppetClass" "api/v2/puppetclasses" ["sat"],
    entity_decl "Realm" "api/v2/realms" ["sat"],
    entity_decl "Report" "api/v2/reports" ["sat"],
    entity_decl "Repository" Repository.api_path ["sat"],
    entity_decl "RoleLDAPGroups" "katello/api/v2/roles/:role_id/ldap_groups"
      ["sat", "sam"],
    entity_decl "Role" "api/v2/roles" ["sat", "sam"],
    entity_decl "SmartProxy" "api/v2/smart_proxies" ["sat"],
    entity_decl "SmartVariable" "api/v2/smart_variables" ["sat"],
    entity_decl "Status" "katello/api/v2/status" ["sat"],
    entity_decl_names "Subnet" "api/v2/subnets" [("from_", "from")] ["sat"],
    entity_decl_names "Subscription" "katello/api/v2/subscriptions/:id"
      [("pool_uuid", "id")] ["sat", "sam"],
    entity_decl "SyncPlan" "katello/api/v2/organizations/:organization_id/sync_plans"
      ["sat"],
    entity_decl "SystemPackage" "katello/api/v2/systems/:system_id/packages" ["sat"],
    entity_decl "System" System.api_path ["sat", "sam"],
    entity_decl "TemplateCombination"
      "api/v2/config_templates/:config_template_id/template_combinations" ["sat"],
    entity_decl "TemplateKind" "api/v2/template_kinds" ["sat"],
    entity_decl "UserGroup" "api/v2/usergroups" ["sat"],
    entity_decl "User" "api/v2/users" ["sat", "sam"] ]

/-- What claim C7 asserts of one entity class: a declared Meta holding a
single api path template string, with every declared server mode drawn
from sat and sam. -/
def meta_single_path_and_modes (d : EntityDecl) : Bool :=
  match d.meta with
  | none => false
  | some m =>
    m.api_path.length == 1 &&
      m.server_modes.all (fun s => s == "sat" || s == "sam")

/-- What claim C1 asserts of one asynchronous helper call: res is the
result of the call and resp the response the server gave its request.
When the response status is 202 and its JSON carries an id, the call
returns that task id (provided, when synchronous, that polling the task
succeeds rather than raising); on any other non error status the call
returns None. -/
abbrev async_202_spec (res : Except ApiError (Option JsonVal)) (resp : Response)
    (synchronous : Bool) (task_finished : JsonVal → Nat → Bool)
    (task_info : JsonVal → Nat → JsonVal) : Prop :=
  (∀ task_id, resp.status_code = httplib.ACCEPTED →
    resp.json.index "id" = Except.ok task_id →
    (synchronous = false ∨
      ∃ v, ForemanTask.poll { id := task_id } 5 120 task_finished task_info =
        Except.ok v) →
    res = Except.ok (some task_id)) ∧
  (http_error_status resp.status_code = false →
    resp.status_code ≠ httplib.ACCEPTED → res = Except.ok none)

/-- What claim C3 asserts of one asynchronous helper call: when
synchronous is false no task is polled, and when synchronous is true and
the response is a 202 carrying a task id, exactly that task is polled,
and the task id is returned once the poll completes. -/
abbrev async_poll_spec (call : CallResult (Option JsonVal)) (resp : Response)
    (synchronous : Bool) (task_finished : JsonVal → Nat → Bool)
    (task_info : JsonVal → Nat → JsonVal) : Prop :=
  (synchronous = false → call.polls = []) ∧
  (∀ task_id, synchronous = true → resp.status_code = httplib.ACCEPTED →
    resp.json.index "id" = Except.ok task_id →
    call.polls = [task_id] ∧
      (∀ v, ForemanTask.poll { id := task_id } 5 120 task_finished task_info =
          Except.ok v →
        call.result = Except.ok (some task_id)))

/-- What claim C5 asserts of one helper call: when the response status is
a 4xx or 5xx, the call propagates the HTTP error of the client and
produces no value. -/
abbrev raises_http_error {α : Type} (res : Except ApiError α) (resp : Response) :
    Prop :=
  http_error_status resp.status_code = true →
    res = Except.error (ApiError.httpError resp.status_code)

/-- What claim C2 asserts of one uniqueness search: given a non error
response whose JSON carries a results list, the search raises
APIResponseError carrying the result count exactly when that count
differs from one, and returns the id of the single result otherwise. -/
abbrev unique_search_spec (res : Except ApiError JsonVal) (resp : Response) : Prop :=
  http_error_status resp.status_code = false →
    ∀ rs, resp.json.index "results" = Except.ok (JsonVal.arr rs) →
      (rs.length ≠ 1 → res = Except.error (ApiError.apiResponseError rs.length)) ∧
      (∀ r i, rs = [r] → r.index "id" = Except.ok i → res = Except.ok i)

/-- A 202 response whose JSON carries task id 7, used as a concrete
server answer by the witnesses. -/
def resp202 : Response :=
  { status_code := 202, json := JsonVal.obj [("id", JsonVal.num 7)] }

/-- A server answering every request with resp202. -/
def server202 : Request → Response := fun _ => resp202

/-- A server answering every request with status 500 and an empty JSON
object. -/
def server500 : Request → Response :=
  fun _ => { status_code := 500, json := JsonVal.obj [] }

/-- A server answering every request with status 200 and a results list
holding the single entry of id 42. -/
def server_one_result : Request → Response :=
  fun _ =>
    { status_code := 200,
      json := JsonVal.obj
        [("results", JsonVal.arr [JsonVal.obj [("id", JsonVal.num 42)]])] }

/-- A task status oracle under which no task ever finishes. -/
def never_finished : JsonVal → Nat → Bool := fun _ _ => false

/-- A task status oracle under which every task is finished from check
number two on. -/
def finished_at_two : JsonVal → Nat → Bool := fun _ k => decide (2 ≤ k)

/-- A task information oracle answering null for every task and check. -/
def null_info : JsonVal → Nat → JsonVal := fun _ _ => JsonVal.null

/-- A concrete store of one OperatingSystemParameter object whose os_id
is 3, used by the witnesses. -/
def os_param_heap_one : OSParamHeap :=
  { mem := fun _ => { os_id := 3, id := none, name := none, value := none },
    next := 1 }

theorem task_tail_async_202_spec (resp : Response) (synchronous : Bool)
    (tf : JsonVal → Nat → Bool) (ti : JsonVal → Nat → JsonVal) :
    async_202_spec (task_response_tail resp synchronous tf ti).1 resp synchronous
      tf ti := by
  constructor
  · intro task_id h202 hid hp
    have herr : http_error_status httplib.ACCEPTED = false := rfl
    rcases hp with hs | ⟨v, hv⟩
    · subst hs
      simp [task_response_tail, herr, h202, hid]
    · cases synchronous
      · simp [task_response_tail, herr, h202, hid]
      · simp [task_response_tail, herr, h202, hid, hv]
  · intro herr hne
    simp [task_response_tail, herr, hne]

/-- C1: for every asynchronous helper method, a 202 response makes the
method return the task id taken from the id field of the response JSON
(once the synchronous poll, if any, completes), and any other non error
response makes it return None. -/
theorem c1_async_helpers (server : Request → Response)
    (task_finished : JsonVal → Nat → Bool) (task_info : JsonVal → Nat → JsonVal)
    (synchronous : Bool) (cv : ContentView) (cvv : ContentViewVersion)
    (environment_id : String) (repo : Repository) (org : Organization)
    (manifest_path : String) (repository_url : Option String) (prod : Product)
    (base_arch release_ver reposet_id : String) :
    async_202_spec (ContentView.publish cv synchronous server task_finished
        task_info).result
      (server (ContentView.publish_request cv)) synchronous task_finished
      task_info ∧
    async_202_spec (ContentViewVersion.promote cvv environment_id synchronous
        server task_finished task_info).result
      (server (ContentViewVersion.promote_request cvv environment_id)) synchronous
      task_finished task_info ∧
    async_202_spec (Repository.sync repo synchronous server task_finished
        task_info).result
      (server (Repository.sync_request repo)) synchronous task_finished task_info ∧
    async_202_spec (Organization.upload_manifest org manifest_path repository_url
        synchronous server task_finished task_info).result
      (server (Organization.upload_manifest_request org manifest_path
        repository_url)) synchronous task_finished task_info ∧
    async_202_spec (Organization.delete_manifest org synchronous server
        task_finished task_info).result
      (server (Organization.delete_manifest_request org)) synchronous task_finished
      task_info ∧
    async_202_spec (Organization.refresh_manifest org synchronous server
        task_finished task_info).result
      (server (Organization.refresh_manifest_request org)) synchronous
      task_finished task_info ∧
    async_202_spec (Product.enable_rhrepo prod base_arch release_ver reposet_id
        synchronous server task_finished task_info).result
      (server (Product.enable_rhrepo_request prod base_arch release_ver
        reposet_id)) synchronous task_finished task_info ∧
    async_202_spec (Product.disable_rhrepo prod base_arch release_ver reposet_id
        synchronous server task_finished task_info).result
      (server (Product.disable_rhrepo_request prod base_arch release_ver
        reposet_id)) synchronous task_finished task_info :=
  ⟨task_tail_async_202_spec _ _ _ _, task_tail_async_202_spec _ _ _ _,
   task_tail_async_202_spec _ _ _ _, task_tail_async_202_spec _ _ _ _,
   task_tail_async_202_spec _ _ _ _, task_tail_async_202_spec _ _ _ _,
   task_tail_async_202_spec _ _ _ _, task_tail_async_202_spec _ _ _ _⟩

/-- Witness for C1: publishing a content view against a server that
answers 202 with task id 7 returns task id 7. -/
theorem c1_witness :
    (ContentView.publish { id := some 1 } false server202 never_finished
      null_info).result = Except.ok (some (JsonVal.num 7)) :=
  (c1_async_helpers server202 never_finished null_info false { id := some 1 }
      { id := some 2 } "3" { id := some 4 } { id := some 5 } "manifest.zip" none
      { id := some 6 } "x86_64" "7Server" "9").1.1
    (JsonVal.num 7) rfl rfl (Or.inl rfl)

theorem task_tail_poll_parts (resp : Response) (synchronous : Bool)
    (tf : JsonVal → Nat → Bool) (ti : JsonVal → Nat → JsonVal) :
    (synchronous = false → (task_response_tail resp synchronous tf ti).2 = []) ∧
    (∀ task_id, synchronous = true → resp.status_code = httplib.ACCEPTED →
      resp.json.index "id" = Except.ok task_id →
      (task_response_tail resp synchronous tf ti).2 = [task_id] ∧
        (∀ v, ForemanTask.poll { id := task_id } 5 120 tf ti = Except.ok v →
          (task_response_tail resp synchronous tf ti).1 =
            Except.ok (some task_id))) := by
  constructor
  · rintro rfl
    unfold task_response_tail
    split
    · rfl
    split
    · cases hidx : resp.json.index "id" <;> simp [hidx]
    · rfl
  · intro task_id hs h202 hid
    subst hs
    have herr : http_error_status httplib.ACCEPTED = false := rfl
    constructor
    · cases hpoll : ForemanTask.poll { id := task_id } 5 120 tf ti <;>
        simp [task_response_tail, herr, h202, hid, hpoll]
    · intro v hv
      simp [task_response_tail, herr, h202, hid, hv]

/-- C3: for every asynchronous helper method receiving a 202 response,
synchronous true polls exactly the returned ForemanTask to completion
before returning the task id, and synchronous false polls nothing. -/
theorem c3_synchronous_polling (server : Request → Response)
    (task_finished : JsonVal → Nat → Bool) (task_info : JsonVal → Nat → JsonVal)
    (synchronous : Bool) (cv : ContentView) (cvv : ContentViewVersion)
    (environment_id : String) (repo : Repository) (org : Organization)
    (manifest_path : String) (repository_url : Option String) (prod : Product)
    (base_arch release_ver reposet_id : String) :
    async_poll_spec (ContentView.publish cv synchronous server task_finished
        task_info)
      (server (ContentView.publish_request cv)) synchronous task_finished
      task_info ∧
    async_poll_spec (ContentViewVersion.promote cvv environment_id synchronous
        server task_finished task_info)
      (server (ContentViewVersion.promote_request cvv environment_id)) synchronous
      task_finished task_info ∧
    async_poll_spec (Repository.sync repo synchronous server task_finished
        task_info)
      (server (Repository.sync_request repo)) synchronous task_finished task_info ∧
    async_poll_spec (Organization.upload_manifest org manifest_path repository_url
        synchronous server task_finished task_info)
      (server (Organization.upload_manifest_request org manifest_path
        repository_url)) synchronous task_finished task_info ∧
    async_poll_spec (Organization.delete_manifest org synchronous server
        task_finished task_info)
      (server (Organization.delete_manifest_request org)) synchronous task_finished
      task_info ∧
    async_poll_spec (Organization.refresh_manifest org synchronous server
        task_finished task_info)
      (server (Organization.refresh_manifest_request org)) synchronous
      task_finished task_info ∧
    async_poll_spec (Product.enable_rhrepo prod base_arch release_ver reposet_id
        synchronous server task_finished task_info)
      (server (Product.enable_rhrepo_request prod base_arch release_ver
        reposet_id)) synchronous task_finished task_info ∧
    async_poll_spec (Product.disable_rhrepo prod base_arch release_ver reposet_id
        synchronous server task_finished task_info)
      (server (Product.disable_rhrepo_request prod base_arch release_ver
        reposet_id)) synchronous task_finished task_info :=
  ⟨task_tail_poll_parts _ _ _ _, task_tail_poll_parts _ _ _ _,
   task_tail_poll_parts _ _ _ _, task_tail_poll_parts _ _ _ _,
   task_tail_poll_parts _ _ _ _, task_tail_poll_parts _ _ _ _,
   task_tail_poll_parts _ _ _ _, task_tail_poll_parts _ _ _ _⟩

/-- Witness for C3: a repository sync with synchronous false polls no
task at all. -/
theorem c3_witness :
    (Repository.sync { id := some 4 } false server202 never_finished
      null_info).polls = [] :=
  (c3_synchronous_polling server202 never_finished null_info false
      { id := some 1 } { id := some 2 } "3" { id := some 4 } { id := some 5 }
      "manifest.zip" none { id := some 6 } "x86_64" "7Server" "9").2.2.1.1 rfl

theorem task_tail_http_error (resp : Response) (synchronous : Bool)
    (tf : JsonVal → Nat → Bool) (ti : JsonVal → Nat → JsonVal)
    (herr : http_error_status resp.status_code = true) :
    (task_response_tail resp synchronous tf ti).1 =
      Except.error (ApiError.httpError resp.status_code) := by
  simp [task_response_tail, herr]

theorem unique_search_tail_http_error (resp : Response)
    (herr : http_error_status resp.status_code = true) :
    unique_search_tail resp = Except.error (ApiError.httpError resp.status_code) := by
  simp [unique_search_tail, herr]

/-- C5: every helper method that issues an HTTP request propagates the
HTTP error of the underlying client, raised by raise_for_status, when
the response it receives carries a 4xx or 5xx status, and produces no
value in that case. -/
theorem c5_http_errors (server : Request → Response)
    (task_finished : JsonVal → Nat → Bool) (task_info : JsonVal → Nat → JsonVal)
    (synchronous : Bool) (cv : ContentView) (cvv : ContentViewVersion)
    (environment_id : String) (repo : Repository) (org : Organization)
    (manifest_path : String) (repository_url : Option String) (prod : Product)
    (base_arch release_ver reposet_id : String) (ak : ActivationKey)
    (subscription_id quantity : JsonVal) (name interval sync_date : String)
    (per_page : Option Nat) (pp : Nat) (perm : Permission) (org_id : String) :
    raises_http_error (ContentView.publish cv synchronous server task_finished
        task_info).result (server (ContentView.publish_request cv)) ∧
    raises_http_error (ContentViewVersion.promote cvv environment_id synchronous
        server task_finished task_info).result
      (server (ContentViewVersion.promote_request cvv environment_id)) ∧
    raises_http_error (Repository.sync repo synchronous server task_finished
        task_info).result (server (Repository.sync_request repo)) ∧
    raises_http_error (Organization.upload_manifest org manifest_path
        repository_url synchronous server task_finished task_info).result
      (server (Organization.upload_manifest_request org manifest_path
        repository_url)) ∧
    raises_http_error (Organization.delete_manifest org synchronous server
        task_finished task_info).result
      (server (Organization.delete_manifest_request org)) ∧
    raises_http_error (Organization.refresh_manifest org synchronous server
        task_finished task_info).result
      (server (Organization.refresh_manifest_request org)) ∧
    raises_http_error (Product.enable_rhrepo prod base_arch release_ver reposet_id
        synchronous server task_finished task_info).result
      (server (Product.enable_rhrepo_request prod base_arch release_ver
        reposet_id)) ∧
    raises_http_error (Product.disable_rhrepo prod base_arch release_ver
        reposet_id synchronous server task_finished task_info).result
      (server (Product.disable_rhrepo_request prod base_arch release_ver
        reposet_id)) ∧
    raises_http_error (ActivationKey.add_subsciptions ak subscription_id quantity
        server).result
      (server (ActivationKey.add_subsciptions_request ak subscription_id
        quantity)) ∧
    raises_http_error (Organization.subscriptions org server).result
      (server (Organization.subscriptions_request org)) ∧
    raises_http_error (Organization.sync_plan org name interval sync_date
        server).result
      (server (Organization.sync_plan_request org name interval sync_date)) ∧
    raises_http_error (Organization.list_rhproducts org per_page server).result
      (server (Organization.list_rhproducts_request org per_page)) ∧
    raises_http_error (Product.list_repositorysets prod per_page server).result
      (server (Product.list_repositorysets_request prod per_page)) ∧
    raises_http_error (Permission.search perm pp server).result
      (server (Permission.search_request perm pp)) ∧
    raises_http_error (Organization.fetch_rhproduct_id org name server).result
      (server (Organization.fetch_rhproduct_id_request org name)) ∧
    raises_http_error (Product.fetch_rhproduct_id prod name org_id server).result
      (server (Product.fetch_rhproduct_id_request prod name org_id)) ∧
    raises_http_error (Product.fetch_reposet_id prod name server).result
      (server (Product.fetch_reposet_id_request prod name)) ∧
    raises_http_error (Repository.fetch_repoid repo org_id name server).result
      (server (Repository.fetch_repoid_request repo org_id name)) := by
  refine ⟨?_, ?_, ?_, ?_, ?_, ?_, ?_, ?_, ?_, ?_, ?_, ?_, ?_, ?_, ?_, ?_, ?_, ?_⟩
  · exact task_tail_http_error _ _ _ _
  · exact task_tail_http_error _ _ _ _
  · exact task_tail_http_error _ _ _ _
  · exact task_tail_http_error _ _ _ _
  · exact task_tail_http_error _ _ _ _
  · exact task_tail_http_error _ _ _ _
  · exact task_tail_http_error _ _ _ _
  · exact task_tail_http_error _ _ _ _
  · intro herr
    simp [ActivationKey.add_subsciptions, herr]
  · intro herr
    simp [Organization.subscriptions, herr]
  · intro herr
    simp [Organization.sync_plan, herr]
  · intro herr
    simp [Organization.list_rhproducts, herr]
  · intro herr
    simp [Product.list_repositorysets, herr]
  · intro herr
    simp [Permission.search, herr]
  · exact unique_search_tail_http_error _
  · exact unique_search_tail_http_error _
  · exact unique_search_tail_http_error _
  · exact unique_search_tail_http_error _

/-- Witness for C5: publishing a content view against a server answering
500 raises the HTTP error carrying status 500. -/
theorem c5_witness :
    (ContentView.publish { id := some 1 } true server500 never_finished
      null_info).result = Except.error (ApiError.httpError 500) :=
  (c5_http_errors server500 never_finished null_info true { id := some 1 }
      { id := some 2 } "3" { id := some 4 } { id := some 5 } "manifest.zip" none
      { id := some 6 } "x86_64" "7Server" "9" { id := some 7 } (JsonVal.num 1)
      (JsonVal.num 2) "plan" "daily" "2014-01-01 00:00:00" none 10000
      { id := none, name := none, resource_type := none } "1").1 rfl

/-- C4: no method of this layer performs local recovery or retry: every
modelled operation issues each underlying HTTP request at most once per
call, and no response, failed or otherwise, is ever re-attempted.  In
particular ActivationKey.read_raw issues exactly one GET whatever the
response: its retry branch tests status_code is 404 with the identity
operator, which never succeeds for the non interned 404, so the branch
is dead code. -/
theorem c4_no_retry :
    (∀ (cv : ContentView) (synchronous : Bool) (server : Request → Response)
      (tf : JsonVal → Nat → Bool) (ti : JsonVal → Nat → JsonVal),
      (ContentView.publish cv synchronous server tf ti).requests =
        [ContentView.publish_request cv]) ∧
    (∀ (cvv : ContentViewVersion) (environment_id : String) (synchronous : Bool)
      (server : Request → Response) (tf : JsonVal → Nat → Bool)
      (ti : JsonVal → Nat → JsonVal),
      (ContentViewVersion.promote cvv environment_id synchronous server tf
        ti).requests = [ContentViewVersion.promote_request cvv environment_id]) ∧
    (∀ (repo : Repository) (synchronous : Bool) (server : Request → Response)
      (tf : JsonVal → Nat → Bool) (ti : JsonVal → Nat → JsonVal),
      (Repository.sync repo synchronous server tf ti).requests =
        [Repository.sync_request repo]) ∧
    (∀ (org : Organization) (manifest_path : String)
      (repository_url : Option String) (synchronous : Bool)
      (server : Request → Response) (tf : JsonVal → Nat → Bool)
      (ti : JsonVal → Nat → JsonVal),
      (Organization.upload_manifest org manifest_path repository_url synchronous
        server tf ti).requests =
        [Organization.upload_manifest_request org manifest_path repository_url]) ∧
    (∀ (org : Organization) (synchronous : Bool) (server : Request → Response)
      (tf : JsonVal → Nat → Bool) (ti : JsonVal → Nat → JsonVal),
      (Organization.delete_manifest org synchronous server tf ti).requests =
        [Organization.delete_manifest_request org]) ∧
    (∀ (org : Organization) (synchronous : Bool) (server : Request → Response)
      (tf : JsonVal → Nat → Bool) (ti : JsonVal → Nat → JsonVal),
      (Organization.refresh_manifest org synchronous server tf ti).requests =
        [Organization.refresh_manifest_request org]) ∧
    (∀ (prod : Product) (base_arch release_ver reposet_id : String)
      (synchronous : Bool) (server : Request → Response)
      (tf : JsonVal → Nat → Bool) (ti : JsonVal → Nat → JsonVal),
      (Product.enable_rhrepo prod base_arch release_ver reposet_id synchronous
        server tf ti).requests =
        [Product.enable_rhrepo_request prod base_arch release_ver reposet_id]) ∧
    (∀ (prod : Product) (base_arch release_ver reposet_id : String)
      (synchronous : Bool) (server : Request → Response)
      (tf : JsonVal → Nat → Bool) (ti : JsonVal → Nat → JsonVal),
      (Product.disable_rhrepo prod base_arch release_ver reposet_id synchronous
        server tf ti).requests =
        [Product.disable_rhrepo_request prod base_arch release_ver reposet_id]) ∧
    (∀ (ak : ActivationKey) (subscription_id quantity : JsonVal)
      (server : Request → Response),
      (ActivationKey.add_subsciptions ak subscription_id quantity
        server).requests =
        [ActivationKey.add_subsciptions_request ak subscription_id quantity]) ∧
    (∀ (org : Organization) (server : Request → Response),
      (Organization.subscriptions org server).requests =
        [Organization.subscriptions_request org]) ∧
    (∀ (org : Organization) (name interval sync_date : String)
      (server : Request → Response),
      (Organization.sync_plan org name interval sync_date server).requests =
        [Organization.sync_plan_request org name interval sync_date]) ∧
    (∀ (org : Organization) (per_page : Option Nat) (server : Request → Response),
      (Organization.list_rhproducts org per_page server).requests =
        [Organization.list_rhproducts_request org per_page]) ∧
    (∀ (prod : Product) (per_page : Option Nat) (server : Request → Response),
      (Product.list_repositorysets prod per_page server).requests =
        [Product.list_repositorysets_request prod per_page]) ∧
    (∀ (perm : Permission) (pp : Nat) (server : Request → Response),
      (Permission.search perm pp server).requests =
        [Permission.search_request perm pp]) ∧
    (∀ (org : Organization) (name : String) (server : Request → Response),
      (Organization.fetch_rhproduct_id org name server).requests =
        [Organization.fetch_rhproduct_id_request org name]) ∧
    (∀ (prod : Product) (name org_id : String) (server : Request → Response),
      (Product.fetch_rhproduct_id prod name org_id server).requests =
        [Product.fetch_rhproduct_id_request prod name org_id]) ∧
    (∀ (prod : Product) (name : String) (server : Request → Response),
      (Product.fetch_reposet_id prod name server).requests =
        [Product.fetch_reposet_id_request prod name]) ∧
    (∀ (repo : Repository) (org_id name : String) (server : Request → Response),
      (Repository.fetch_repoid repo org_id name server).requests =
        [Repository.fetch_repoid_request repo org_id name]) ∧
    (∀ (lc : LifecycleEnvironment) (server : Request → Response)
      (new_org_id : JsonVal)
      (super_build : LifecycleEnvironment → Except ApiError JsonVal),
      (LifecycleEnvironment.build lc server new_org_id
        super_build).requests.length ≤ 1) ∧
    (∀ (ak : ActivationKey) (bug_1127335_open : Bool)
      (server : Request → Response),
      (ActivationKey.read_raw ak bug_1127335_open server).2 =
        [ActivationKey.read_raw_request ak]) := by
  refine ⟨fun _ _ _ _ _ => rfl, fun _ _ _ _ _ _ => rfl, fun _ _ _ _ _ => rfl,
    fun _ _ _ _ _ _ _ => rfl, fun _ _ _ _ _ => rfl, fun _ _ _ _ _ => rfl,
    fun _ _ _ _ _ _ _ _ => rfl, fun _ _ _ _ _ _ _ _ => rfl, ?_, ?_, ?_, ?_, ?_,
    ?_, fun _ _ _ => rfl, fun _ _ _ _ => rfl, fun _ _ _ => rfl,
    fun _ _ _ _ => rfl, ?_, ?_⟩
  · intro ak subscription_id quantity server
    simp [ActivationKey.add_subsciptions, apply_ite CallResult.requests]
  · intro org server
    simp [Organization.subscriptions, apply_ite CallResult.requests]
  · intro org name interval sync_date server
    simp [Organization.sync_plan, apply_ite CallResult.requests]
  · intro org per_page server
    simp [Organization.list_rhproducts, apply_ite CallResult.requests]
  · intro prod per_page server
    simp [Product.list_repositorysets, apply_ite CallResult.requests]
  · intro perm pp server
    simp [Permission.search, apply_ite CallResult.requests]
  · intro lc server new_org_id super_build
    simp only [LifecycleEnvironment.build]
    split
    · simp
    · split
      all_goals first
        | simp
        | (split <;> simp)
  · intro ak bug_1127335_open server
    simp [ActivationKey.read_raw, int_is_literal]

theorem unique_search_tail_spec (resp : Response) :
    unique_search_spec (unique_search_tail resp) resp := by
  intro herr rs hres
  constructor
  · intro hlen
    match rs, hlen with
    | [], _ => simp [unique_search_tail, herr, hres]
    | r :: r2 :: t, _ => simp [unique_search_tail, herr, hres]
    | [r], hlen => exact absurd rfl hlen
  · rintro r i rfl hid
    simp [unique_search_tail, herr, hres, hid]

/-- C2: every uniqueness search raises APIResponseError carrying the
result count exactly when the search returns a number of results other
than one, and otherwise yields the id of the single result: the four
fetch helpers return that id, and the Library lookup of
LifecycleEnvironment.build stores it as the prior field of the entity
handed to the factory build. -/
theorem c2_unique_searches (server : Request → Response) (org : Organization)
    (prod : Product) (repo : Repository) (name org_id : String)
    (lc : LifecycleEnvironment) (new_org_id : JsonVal)
    (super_build : LifecycleEnvironment → Except ApiError JsonVal) :
    unique_search_spec (Organization.fetch_rhproduct_id org name server).result
      (server (Organization.fetch_rhproduct_id_request org name)) ∧
    unique_search_spec (Product.fetch_rhproduct_id prod name org_id server).result
      (server (Product.fetch_rhproduct_id_request prod name org_id)) ∧
    unique_search_spec (Product.fetch_reposet_id prod name server).result
      (server (Product.fetch_reposet_id_request prod name)) ∧
    unique_search_spec (Repository.fetch_repoid repo org_id name server).result
      (server (Repository.fetch_repoid_request repo org_id name)) ∧
    (lc.prior = none →
      ∀ rs, (server (LifecycleEnvironment.build_library_request lc
          new_org_id)).json.index "results" = Except.ok (JsonVal.arr rs) →
        (rs.length ≠ 1 →
          (LifecycleEnvironment.build lc server new_org_id super_build).result =
            Except.error (ApiError.apiResponseError rs.length)) ∧
        (∀ r i, rs = [r] → r.index "id" = Except.ok i →
          (LifecycleEnvironment.build lc server new_org_id super_build).result =
            super_build
              { lc with organization := some (lc.effective_org new_org_id),
                        prior := some i })) := by
  refine ⟨unique_search_tail_spec _, unique_search_tail_spec _,
    unique_search_tail_spec _, unique_search_tail_spec _, ?_⟩
  intro hprior rs hres
  constructor
  · intro hlen
    match rs, hlen with
    | [], _ => simp [LifecycleEnvironment.build, hprior, hres]
    | r :: r2 :: t, _ => simp [LifecycleEnvironment.build, hprior, hres]
    | [r], hlen => exact absurd rfl hlen
  · rintro r i rfl hid
    simp [LifecycleEnvironment.build, hprior, hres, hid]

/-- Witness for C2: searching the products of an organization against a
server whose results list holds the single entry of id 42 returns id
42. -/
theorem c2_witness :
    (Organization.fetch_rhproduct_id { id := some 1 } "Red Hat Enterprise Linux"
      server_one_result).result = Except.ok (JsonVal.num 42) :=
  ((c2_unique_searches server_one_result { id := some 1 } { id := some 2 }
      { id := some 3 } "Red Hat Enterprise Linux" "1"
      { id := none, organization := none, prior := none } JsonVal.null
      (fun _ => Except.ok JsonVal.null)).1 rfl
    [JsonVal.obj [("id", JsonVal.num 42)]] rfl).2
    (JsonVal.obj [("id", JsonVal.num 42)]) (JsonVal.num 42) rfl rfl

theorem poll_checks_eq_none (f : Nat → Bool) :
    ∀ (n k0 : Nat), (∀ j, j < n → f (k0 + j) = false) → poll_checks f n k0 = none := by
  intro n
  induction n with
  | zero => intro k0 h; rfl
  | succ m ih =>
    intro k0 h
    have h0 : f k0 = false := by simpa using h 0 (Nat.succ_pos m)
    have step : poll_checks f (m + 1) k0 = poll_checks f m (k0 + 1) := by
      simp [poll_checks, h0]
    rw [step]
    refine ih (k0 + 1) (fun j hj => ?_)
    have := h (j + 1) (by omega)
    rw [show k0 + 1 + j = k0 + (j + 1) by omega]
    exact this

theorem poll_checks_eq_some (f : Nat → Bool) :
    ∀ (n d k0 : Nat), d < n → f (k0 + d) = true →
      (∀ j, j < d → f (k0 + j) = false) → poll_checks f n k0 = some (k0 + d) := by
  intro n
  induction n with
  | zero => intro d k0 hd; omega
  | succ m ih =>
    intro d k0 hd hf hmin
    cases d with
    | zero =>
      have h0 : f k0 = true := by simpa using hf
      simp [poll_checks, h0]
    | succ e =>
      have h0 : f k0 = false := by simpa using hmin 0 (Nat.succ_pos e)
      have step : poll_checks f (m + 1) k0 = poll_checks f m (k0 + 1) := by
        simp [poll_checks, h0]
      rw [step]
      have hf1 : f (k0 + 1 + e) = true := by
        rw [show k0 + 1 + e = k0 + (e + 1) by omega]
        exact hf
      have hmin1 : ∀ j, j < e → f (k0 + 1 + j) = false := fun j hj => by
        rw [show k0 + 1 + j = k0 + (j + 1) by omega]
        exact hmin (j + 1) (by omega)
      have := ih e (k0 + 1) (by omega) hf1 hmin1
      rw [this]
      congr 1
      omega

theorem lt_num_checks_iff (poll_rate timeout k : Nat) (hr : 0 < poll_rate) :
    k < num_checks poll_rate timeout ↔ k * poll_rate < timeout := by
  unfold num_checks
  rw [Nat.lt_iff_add_one_le, Nat.le_div_iff_mul_le hr, Nat.add_one_mul]
  have h : k * poll_rate + poll_rate ≤ timeout + poll_rate - 1 ↔
      k * poll_rate < timeout := by
    generalize k * poll_rate = m
    omega
  exact h

/-- C6: ForemanTask.poll checks the status of the task once every
poll_rate seconds (check number k runs k * poll_rate seconds after the
start, while that is below timeout): it returns the task information of
the first check that sees the task finished, and raises TaskTimeout when
the task is not finished before timeout seconds have elapsed. -/
theorem c6_foreman_task_poll (task : ForemanTask) (poll_rate timeout : Nat)
    (task_finished : JsonVal → Nat → Bool) (task_info : JsonVal → Nat → JsonVal)
    (hr : 0 < poll_rate) :
    (∀ k, k * poll_rate < timeout → task_finished task.id k = true →
      (∀ j, j < k → task_finished task.id j = false) →
      ForemanTask.poll task poll_rate timeout task_finished task_info =
        Except.ok (task_info task.id k)) ∧
    ((∀ k, k * poll_rate < timeout → task_finished task.id k = false) →
      ForemanTask.poll task poll_rate timeout task_finished task_info =
        Except.error ApiError.taskTimeout) := by
  constructor
  · intro k hk hfin hmin
    have hlt : k < num_checks poll_rate timeout :=
      (lt_num_checks_iff poll_rate timeout k hr).2 hk
    have hsome : poll_checks (task_finished task.id)
        (num_checks poll_rate timeout) 0 = some (0 + k) :=
      poll_checks_eq_some (task_finished task.id) (num_checks poll_rate timeout)
        k 0 hlt (by simpa using hfin) (fun j hj => by simpa using hmin j hj)
    rw [show (0 : Nat) + k = k by omega] at hsome
    simp [ForemanTask.poll, orm_poll_task, hsome]
  · intro hnone
    have h : poll_checks (task_finished task.id)
        (num_checks poll_rate timeout) 0 = none := by
      refine poll_checks_eq_none (task_finished task.id) _ 0 (fun j hj => ?_)
      have hjt : j * poll_rate < timeout :=
        (lt_num_checks_iff poll_rate timeout j hr).1 hj
      simpa using hnone j hjt
    simp [ForemanTask.poll, orm_poll_task, h]

/-- Witness for C6: with poll rate 5 and timeout 120, a task finished
from check two on is reported with the information of check two. -/
theorem c6_witness :
    ForemanTask.poll { id := JsonVal.null } 5 120 finished_at_two null_info =
      Except.ok (null_info JsonVal.null 2) :=
  (c6_foreman_task_poll { id := JsonVal.null } 5 120 finished_at_two null_info
      (by decide)).1 2 (by decide) (by decide) (by decide)

/-- C7 counterexample: it is not the case that every entity class
declares, in its inner Meta class, a single api_path template string:
OverrideValue declares a pair of two path strings, and
OperatingSystemParameter declares no inner Meta class at all. -/
theorem c7_counterexample :
    all_entity_decls.all meta_single_path_and_modes = false ∧
    (all_entity_decls.filter (fun d => d.name == "OverrideValue")).all
      (fun d =>
        match d.meta with
        | some m => m.api_path.length == 2
        | none => false) = true ∧
    (all_entity_decls.filter (fun d => d.name == "OperatingSystemParameter")).all
      (fun d => d.meta.isNone) = true :=
  ⟨rfl, rfl, rfl⟩

/-- C7 as amended: every entity class except OperatingSystemParameter
declares an inner Meta class; every server mode any Meta declares is
drawn from sat and sam; every declared api_path is a single path
template string except the one of OverrideValue, which is a pair of two;
and the entities declaring api_names renames are exactly
ContentViewFilter, Host, Interface, Media, OperatingSystem, Subnet and
Subscription. -/
theorem c7_amended :
    all_entity_decls.all
      (fun d => d.name == "OperatingSystemParameter" || d.meta.isSome) = true ∧
    all_entity_decls.all
      (fun d =>
        match d.meta with
        | none => true
        | some m => m.server_modes.all (fun s => s == "sat" || s == "sam")) =
      true ∧
    all_entity_decls.all
      (fun d =>
        match d.meta with
        | none => true
        | some m => m.api_path.length == 1 || d.name == "OverrideValue") = true ∧
    (all_entity_decls.filter (fun d => d.name == "OverrideValue")).map
      (fun d =>
        match d.meta with
        | some m => m.api_path.length
        | none => 0) = [2] ∧
    (all_entity_decls.filter
      (fun d =>
        match d.meta with
        | some m => !m.api_names.isEmpty
        | none => false)).map (fun d => d.name) =
      ["ContentViewFilter", "Host", "Interface", "Media", "OperatingSystem",
       "Subnet", "Subscription"] :=
  ⟨rfl, rfl, rfl, rfl, rfl⟩

/-- C8: System.path returns the base systems path followed by a slash
and the uuid whenever the uuid is set and which is either missing or
"self"; for any other value of which, or when the uuid is missing, the
default path implementation is used. -/
theorem c8_system_path (self : System) (which : Option String) :
    (∀ u, self.uuid = some u → which = none ∨ which = some "self" →
      System.path self which = System.api_path ++ "/" ++ u) ∧
    (self.uuid = none →
      System.path self which = default_path System.api_path self.id which) ∧
    (which ≠ none → which ≠ some "self" →
      System.path self which = default_path System.api_path self.id which) := by
  refine ⟨?_, ?_, ?_⟩
  · intro u hu hw
    simp only [System.path, hu]
    rw [if_pos hw]
    rfl
  · intro hu
    simp [System.path, hu]
  · intro h1 h2
    cases hu : self.uuid with
    | none => simp [System.path, hu]
    | some u =>
      have hcond : ¬(which = none ∨ which = some "self") := by
        rintro (h | h)
        · exact h1 h
        · exact h2 h
      simp only [System.path, hu]
      rw [if_neg hcond]

/-- Witness for C8: a system of uuid abc is addressed by the base
systems path followed by its uuid. -/
theorem c8_witness :
    System.path { id := some 3, uuid := some "abc" } none =
      "katello/api/v2/systems/abc" :=
  (c8_system_path { id := some 3, uuid := some "abc" } none).1 "abc" rfl
    (Or.inl rfl)

/-- C9: OperatingSystemParameter.read never mutates the receiver: the
fields of the object it is called on are unchanged after the call, and
the object it returns is a fresh one carrying the same os_id, populated
from the server attributes. -/
theorem c9_read_no_mutation (h : OSParamHeap) (self : Nat) (attrs : OSParamAttrs)
    (hself : self < h.next) :
    (OperatingSystemParameter.read h self attrs).2.mem self = h.mem self ∧
    (OperatingSystemParameter.read h self attrs).2.mem
        (OperatingSystemParameter.read h self attrs).1 =
      { os_id := (h.mem self).os_id, id := attrs.id, name := attrs.name,
        value := attrs.value } := by
  have hne : self ≠ h.next := by omega
  constructor
  · simp [OperatingSystemParameter.read, OperatingSystemParameter.new,
      entity_read_into, OSParamHeap.write, hne]
  · simp [OperatingSystemParameter.read, OperatingSystemParameter.new,
      entity_read_into, OSParamHeap.write]

/-- Witness for C9: reading through the one object store leaves the
fields of the receiver exactly as they were. -/
theorem c9_witness :
    (OperatingSystemParameter.read os_param_heap_one 0
      { id := some 2, name := some "a", value := some "b" }).2.mem 0 =
      os_param_heap_one.mem 0 :=
  (c9_read_no_mutation os_param_heap_one 0
    { id := some 2, name := some "a", value := some "b" } (by decide)).1

theorem lookup_append_of_none {β : Type} (l : List (String × β)) (key : String)
    (v : β) (h : l.lookup key = none) :
    (l ++ [(key, v)]).lookup key = some v := by
  induction l with
  | nil => simp [List.lookup]
  | cons p t ih =>
    rcases p with ⟨k, w⟩
    cases hkb : (key == k) with
    | true => simp [List.lookup, hkb] at h
    | false =>
      simp only [List.cons_append, List.lookup, hkb] at h ⊢
      exact ih h

/-- C10: whenever ConfigTemplate._factory_data fills in a
template_kind_id (the generated values mark the template as not a
snippet and no template_kind_id was already set), the chosen id is an
integer between 1 and TemplateKind.Meta.NUM_CREATED_BY_DEFAULT
inclusive. -/
theorem c10_template_kind_id_range (values : List (String × JsonVal))
    (rand_idx : Nat)
    (hsnippet : values.lookup "snippet" = some (JsonVal.bool false))
    (hunset : values.lookup "template_kind_id" = none) :
    ∃ n : Nat, (ConfigTemplate.factory_data values rand_idx).lookup
        "template_kind_id" = some (JsonVal.num n) ∧ 1 ≤ n ∧
      n ≤ TemplateKind.Meta.NUM_CREATED_BY_DEFAULT := by
  have hfd : ConfigTemplate.factory_data values rand_idx =
      values ++ [("template_kind_id",
        JsonVal.num (random_choice
          (List.range' 1 TemplateKind.Meta.NUM_CREATED_BY_DEFAULT) rand_idx))] := by
    simp [ConfigTemplate.factory_data, hsnippet, setdefault, hunset]
  have hb : ∀ j, j < 8 → 1 ≤ (List.range' 1 8).getD j 0 ∧
      (List.range' 1 8).getD j 0 ≤ 8 := by decide
  have hlt : rand_idx % (List.range' 1 8).length < 8 :=
    Nat.mod_lt _ (by decide)
  have hval : 1 ≤ random_choice
      (List.range' 1 TemplateKind.Meta.NUM_CREATED_BY_DEFAULT) rand_idx ∧
      random_choice (List.range' 1 TemplateKind.Meta.NUM_CREATED_BY_DEFAULT)
        rand_idx ≤ 8 := hb _ hlt
  refine ⟨random_choice (List.range' 1 TemplateKind.Meta.NUM_CREATED_BY_DEFAULT)
    rand_idx, ?_, hval.1, hval.2⟩
  rw [hfd]
  exact lookup_append_of_none values _ _ hunset

/-- Witness for C10: generated values marking a non snippet template
with no template_kind_id set receive one between 1 and 8. -/
theorem c10_witness :
    ∃ n : Nat, (ConfigTemplate.factory_data [("snippet", JsonVal.bool false)]
        0).lookup "template_kind_id" = some (JsonVal.num n) ∧ 1 ≤ n ∧
      n ≤ TemplateKind.Meta.NUM_CREATED_BY_DEFAULT :=
  c10_template_kind_id_range [("snippet", JsonVal.bool false)] 0 rfl rfl

end Robottelo
